import Mathlib

/-!
Verification development for the GraphSlick plugin (src/plugin.cpp).

The definitions below are a shallow embedding of the plugin's data model
and of the handlers in `gsgraphview_t` and `gschooser_t`:

* `std::map<int, bgcolor_t>` (ncolormap_t) and the other `std::map`s are
  modelled as association lists with `std::map` insertion semantics
  (`mapFind`, `mapInsert`, `mapErase`).
* `gsgraphview_t`'s mutable members become the record `GVState`; each
  handler becomes a function from state to state (plus a trace of the
  externally visible effects: messages printed with `msg`, calls into
  the group manager, refresh requests).
* `gschooser_t::load_file` / `load_file_show_graph` become functions of
  a `LoadEnv` record holding the outcomes of the external collaborators
  (parser, function lookup, flowchart builder, sanitizer), returning the
  success flag, the retained group-manager state and the event trace.
* Code that lives in groupman.cpp / algo.cpp / colorgen.cpp is not under
  src/; where a claim depends on it, it is either a parameter of the
  embedded handler (the graph builders, `combine_ngl`) or modelled from
  the spec (the `nid -> NodeLocation` index, the color generator), as
  indicated by the doc comments.
-/

/-- Type `bgcolor_t` from the IDA SDK: a plain integer color value. -/
abbrev bgcolor_t := Nat

/-- Constant `NODE_SEL_COLOR = 0x7C75AD` (plugin.cpp line 93). -/
def NODE_SEL_COLOR : bgcolor_t := 0x7C75AD

/-- Enumeration `gvrefresh_modes_e` (plugin.cpp lines 96-101). -/
inductive gvrefresh_modes_e where
  | gvrfm_soft
  | gvrfm_single_mode
  | gvrfm_combined_mode
deriving DecidableEq, Repr

open gvrefresh_modes_e

/-- Lookup in a `std::map`: first entry with the given key (keys are unique in
a well-formed map, so "first" is harmless). -/
def mapFind {α : Type} (m : List (Int × α)) (k : Int) : Option α :=
  match m with
  | [] => none
  | (k', v) :: rest => if k = k' then some v else mapFind rest k

/-- Insertion/update `m[k] = v` into a `std::map`, keeping the entry list sorted
by key the way `std::map` iterates it. -/
def mapInsert {α : Type} (m : List (Int × α)) (k : Int) (v : α) : List (Int × α) :=
  match m with
  | [] => [(k, v)]
  | (k', v') :: rest =>
    if k < k' then (k, v) :: (k', v') :: rest
    else if k = k' then (k, v) :: rest
    else (k', v') :: mapInsert rest k v

/-- Erasure `std::map::erase(iterator)` where the iterator came from `find(k)`:
removes the entry with key `k`. -/
def mapErase {α : Type} (m : List (Int × α)) (k : Int) : List (Int × α) :=
  match m with
  | [] => []
  | (k', v') :: rest => if k = k' then rest else (k', v') :: mapErase rest k

/-- Typedef `ncolormap_t = std::map<int, bgcolor_t>` (plugin.cpp line 91). -/
abbrev ncolormap_t := List (Int × bgcolor_t)

/-- Structure `nodedef_t` from groupman.h: a node id plus its address range, as used
by plugin.cpp (`nd->nid`, `nd->start`, `nd->end`). -/
structure nodedef_t where
  nid : Int
  start : Nat
  endEA : Nat
deriving DecidableEq, Repr

/-- Type `nodegroup_t`: an ordered sequence of node definitions. -/
abbrev nodegroup_t := List nodedef_t

/-- Accessor `nodegroup_t::get_first_node()`: the first node definition or NULL. -/
def nodegroup_t.get_first_node (ng : nodegroup_t) : Option nodedef_t :=
  ng.head?

/-- Structure `nodeloc_t` from groupman.h, as consumed by plugin.cpp (`loc->sg`):
which SuperGroup and NodeGroup a node id belongs to.  SuperGroups are
referenced by their index in the group manager's list. -/
structure nodeloc_t where
  sg : Nat
  ng : Nat
deriving DecidableEq, Repr

/-- Modelled from the spec: groupman.cpp is not under src/.  Per section
4.1 the group manager owns a `nid -> NodeLocation` index built by the
lookup-cache routine; `groupman_t` here carries that index. -/
structure groupman_t where
  nid2loc : List (Int × nodeloc_t)

/-- Modelled from the spec: `find_node_location(nid) -> NodeLocation |
NotFound` (section 4.1), the reverse lookup used by `ngid_to_sg`. -/
def groupman_t.find_nodeid_loc (gm : groupman_t) (nid : Int) : Option nodeloc_t :=
  mapFind gm.nid2loc nid

/-- Type `ng2nid_t`: the `std::map<pnodegroup_t, int>` from NodeGroup to the
synthetic graph-node id of the combined view.  NodeGroups stand for
themselves (the map key is the pointed-to group). -/
abbrev ng2nid_t := List (nodegroup_t × Int)

/-- Structure `gnode_t` from algo.hpp as used by plugin.cpp: display text and hint. -/
structure gnode_t where
  text : String
  hint : String
deriving DecidableEq, Repr

/-- The mutable members of `gsgraphview_t` that the handlers read and
write (plugin.cpp lines 189-254). -/
structure GVState where
  cur_node : Int
  node_map : List (Int × gnode_t)
  ng2id : ng2nid_t
  highlighted_nodes : ncolormap_t
  selected_nodes : ncolormap_t
  refresh_mode : gvrefresh_modes_e
  cur_view_mode : gvrefresh_modes_e
  gm : groupman_t
  in_sel_mode : Bool

/-- Method `gsgraphview_t::reset_states()` (plugin.cpp lines 1265-1277): clears
the node map, the NodeGroup-to-id map, the highlight and selection maps,
and the current-node marker. -/
def reset_states (st : GVState) : GVState :=
  { st with
    node_map := []
    ng2id := []
    highlighted_nodes := []
    selected_nodes := []
    cur_node := -1 }

/-- The state handed to the graph builders by the `grcode_user_refresh`
handler: `reset_states()` followed by `cur_view_mode = refresh_mode`
(plugin.cpp lines 534-540). -/
def pre_build_state (st : GVState) : GVState :=
  { reset_states st with cur_view_mode := st.refresh_mode }

/-- Handler `gsgraphview_t::gr_callback` case `grcode_user_refresh` (plugin.cpp
lines 528-550).  The two graph builders `func_to_mgraph` and
`fc_to_combined_mg` live in algo.cpp, outside src/, so they are
parameters: any function producing the rebuilt state. -/
def gr_user_refresh
    (build_single build_combined : GVState → GVState)
    (st : GVState) : GVState :=
  if st.node_map.isEmpty || st.refresh_mode ≠ gvrfm_soft then
    let st2 := pre_build_state st
    if st.refresh_mode = gvrfm_single_mode then build_single st2
    else if st.refresh_mode = gvrfm_combined_mode then build_combined st2
    else st2
  else st

/-- Handler `gsgraphview_t::gr_callback` case `grcode_user_text` (plugin.cpp
lines 555-589): `none` when the node is not in the node map (result 0),
otherwise the node's text together with the optional background color;
the selection map is consulted before the highlight map. -/
def gr_user_text (st : GVState) (node : Int) : Option (String × Option bgcolor_t) :=
  match mapFind st.node_map node with
  | none => none
  | some gnode =>
    some (gnode.text,
      match mapFind st.selected_nodes node with
      | some c => some c
      | none => mapFind st.highlighted_nodes node)

/-- Method `gsgraphview_t::toggle_select_node` (plugin.cpp lines 1120-1140),
restricted to its effect on `selected_nodes`: insert with
`NODE_SEL_COLOR` when absent, erase when present. -/
def toggle_select_node (selected : ncolormap_t) (cur_node : Int) : ncolormap_t :=
  match mapFind selected cur_node with
  | none => mapInsert selected cur_node NODE_SEL_COLOR
  | some _ => mapErase selected cur_node

/-- Method `gsgraphview_t::get_ng_from_ngid` (plugin.cpp lines 645-656): linear
scan of `ng2id` for the first entry mapped to `ngid`. -/
def get_ng_from_ngid (ng2id : ng2nid_t) (ngid : Int) : Option nodegroup_t :=
  match ng2id with
  | [] => none
  | (ng, i) :: rest => if i = ngid then some ng else get_ng_from_ngid rest ngid

/-- Method `gsgraphview_t::ngid_to_sg` (plugin.cpp lines 1218-1235).  Note the
source resolves `get_ng_from_ngid(cur_node)`, not its `ngid` argument;
the embedding keeps the unused argument. -/
def ngid_to_sg (gm : groupman_t) (ng2id : ng2nid_t) (cur_node : Int)
    (ngid : Int) : Option Nat :=
  match get_ng_from_ngid ng2id cur_node with
  | none => none
  | some ng =>
    match ng.get_first_node with
    | none => none
    | some nd =>
      match gm.find_nodeid_loc nd.nid with
      | none => none
      | some loc => some loc.sg

/-- Externally visible effects of the `idm_combine_ngs` menu handler. -/
inductive GVEvent where
  | msgOnlyCombinedMode
  | msgNotEnoughNodes
  | combineCall (ngl : List (Option nodegroup_t))
  | refreshParent
  | redoLayout (rm : gvrefresh_modes_e)
deriving DecidableEq

/-- Handler `gsgraphview_t::on_menu`, branch `menu_id == idm_combine_ngs`
(plugin.cpp lines 358-393).  `groupman_t::combine_ngl` lives in
groupman.cpp, outside src/, so it is a parameter.  The node-group list is
built from the selection exactly as in the source: one
`get_ng_from_ngid` lookup per selected entry, pushed even when NULL. -/
def on_menu_combine_ngs
    (combine_ngl : groupman_t → List (Option nodegroup_t) → groupman_t)
    (st : GVState) : GVState × List GVEvent :=
  if st.cur_view_mode ≠ gvrfm_combined_mode then
    (st, [GVEvent.msgOnlyCombinedMode])
  else if st.selected_nodes.length ≤ 1 then
    (st, [GVEvent.msgNotEnoughNodes])
  else
    let ngl := st.selected_nodes.map (fun p => get_ng_from_ngid st.ng2id p.1)
    ({ st with gm := combine_ngl st.gm ngl },
     [GVEvent.combineCall ngl, GVEvent.refreshParent,
      GVEvent.redoLayout st.cur_view_mode])

/-- Lifecycle of the group manager held by `gschooser_t::gm` during a
load: freshly allocated, successfully parsed, or parsed with the lookup
cache built. -/
inductive GMState where
  | fresh
  | parsed
  | cached
deriving DecidableEq, Repr

/-- Outcomes of the external collaborators consulted by
`gschooser_t::load_file` (plugin.cpp lines 1920-1967). -/
structure LoadEnv where
  parse_ok : Bool
  has_first_nd : Bool
  func_found : Bool
  flowchart_ok : Bool
  sanitize_ok : Bool
deriving DecidableEq, Repr

/-- Events observable during `load_file` / `load_file_show_graph`. -/
inductive ChEvent where
  | msgParseFail
  | msgNoAddresses
  | msgNoFunction
  | msgNoFlowchart
  | sanitizeCall (ok : Bool)
  | buildLookupsCall
  | populateLines
  | showGraphCall
deriving DecidableEq, Repr

/-- Result of a load: the returned flag, the group manager retained in
`gschooser_t::gm` afterwards (`none` when the object was deleted), and
the event trace. -/
structure LoadResult where
  ok : Bool
  gm : Option GMState
  events : List ChEvent
deriving DecidableEq, Repr

/-- Method `gschooser_t::load_file` (plugin.cpp lines 1920-1967).  The previous
manager is deleted and a fresh one allocated; on parse failure the fresh
manager is deleted and false returned; on a file with no addresses, no
matching function, or a failed flowchart build, false is returned with
the parsed manager still held; otherwise `sanitize_groupman` is called
and only when it succeeds is the lookup cache built; the chooser lines
are then populated and true returned regardless of the sanitize
outcome. -/
def load_file (env : LoadEnv) : LoadResult :=
  if !env.parse_ok then
    { ok := false, gm := none, events := [ChEvent.msgParseFail] }
  else if !env.has_first_nd then
    { ok := false, gm := some GMState.parsed, events := [ChEvent.msgNoAddresses] }
  else if !env.func_found then
    { ok := false, gm := some GMState.parsed, events := [ChEvent.msgNoFunction] }
  else if !env.flowchart_ok then
    { ok := false, gm := some GMState.parsed, events := [ChEvent.msgNoFlowchart] }
  else if env.sanitize_ok then
    { ok := true, gm := some GMState.cached,
      events := [ChEvent.sanitizeCall true, ChEvent.buildLookupsCall,
                 ChEvent.populateLines] }
  else
    { ok := true, gm := some GMState.parsed,
      events := [ChEvent.sanitizeCall false, ChEvent.populateLines] }

/-- Method `gschooser_t::load_file_show_graph` (plugin.cpp lines 1746-1773):
on a successful `load_file` the graph view is created and shown
(`show_graph`); `show_ok` is the outcome of that external creation. -/
def load_file_show_graph (show_ok : Bool) (env : LoadEnv) : LoadResult :=
  let r := load_file env
  if r.ok then
    { ok := show_ok, gm := r.gm, events := r.events ++ [ChEvent.showGraphCall] }
  else r

/-!  Color generator.

Modelled from the spec: colorgen.h / colorgen.cpp are not under src/.
Section 4.5: the assigner "cycles a fixed base palette and applies a
deterministic luminance/hue offset per call, wrapping without repetition
within a reasonably sized batch (defined bound, e.g. <= 64 variants)".
plugin.cpp's `DECL_CG` fixes the luminance step `L_INT = -15`, which
yields 18 distinct luminance levels from 0xFF downwards; the model steps
the luminance by -15 per variant and advances to the next of 8 base hues
when the luminance levels are exhausted. -/

/-- Number of distinct luminance levels with step -15 from 0xFF. -/
def LUM_LEVELS : Nat := 18

/-- Size of the fixed base hue palette cycled across batches. -/
def NUM_HUES : Nat := 8

/-- Modelled from the spec (section 4.5): the color of variant `k` of
batch `b`: the hue channel cycles the fixed palette, starting at the
batch's base hue and advancing when the 18 luminance levels are
exhausted; the luminance channel steps down by 15 per variant. -/
def variant_color (b k : Nat) : Nat :=
  ((b + k / LUM_LEVELS) % NUM_HUES) * 0x10000 + (0xFF - 15 * (k % LUM_LEVELS)) * 0x100

/-- Modelled from the spec: `colorvargen_t`, one highlight batch — the
base hue picked for the batch plus how many variants were handed out. -/
structure colorvargen_t where
  base : Nat
  used : Nat
deriving DecidableEq, Repr

/-- Modelled from the spec: `colorgen_t`, the per-session generator —
the luminance step (`L_INT`, set to -15 by `DECL_CG`) and the next base
hue index. -/
structure colorgen_t where
  L_INT : Int
  next_base : Nat
deriving DecidableEq, Repr

/-- Macro `DECL_CG` (plugin.cpp lines 104-106): a fresh generator with
`L_INT = -15`. -/
def DECL_CG : colorgen_t := { L_INT := -15, next_base := 0 }

/-- Modelled from the spec: `get_colorvar` starts a new batch on the
next base hue of the cycled palette. -/
def colorgen_t.get_colorvar (cg : colorgen_t) : colorvargen_t × colorgen_t :=
  ({ base := cg.next_base, used := 0 }, { cg with next_base := cg.next_base + 1 })

/-- Modelled from the spec: `get_color_anyway` returns the batch's next
variant color and advances the variant counter. -/
def colorgen_t.get_color_anyway (cv : colorvargen_t) : Nat × colorvargen_t :=
  (variant_color cv.base cv.used, { cv with used := cv.used + 1 })

/-- The sequence of colors a batch hands out: `n` successive
`get_color_anyway` calls. -/
def run_variants (cv : colorvargen_t) : Nat → List Nat
  | 0 => []
  | n + 1 =>
    let r := colorgen_t.get_color_anyway cv
    r.1 :: run_variants r.2 n

/-- One full run: for each requested batch size, open a batch with
`get_colorvar` and draw that many variants. -/
def run_batches (cg : colorgen_t) : List Nat → List (List Nat)
  | [] => []
  | n :: rest =>
    let r := cg.get_colorvar
    run_variants r.1 n :: run_batches r.2 rest

/-- Concrete group manager used by the witness statements. -/
def gmW : groupman_t := { nid2loc := [(7, { sg := 2, ng := 0 })] }

/-- Concrete graph-view state used by the witness statements: combined
view displayed, one selected node, one highlighted node, a pending
single-mode rebuild request. -/
def gvState0 : GVState :=
  { cur_node := 5
    node_map := [(0, { text := "node0", hint := "" })]
    ng2id := []
    highlighted_nodes := [(1, 0x334455)]
    selected_nodes := [(0, NODE_SEL_COLOR)]
    refresh_mode := gvrfm_single_mode
    cur_view_mode := gvrfm_combined_mode
    gm := gmW
    in_sel_mode := true }

/-- Concrete graph-view state whose displayed view is the single (flat)
projection. -/
def gvState1 : GVState :=
  { gvState0 with cur_view_mode := gvrfm_single_mode }

/-- Load environment in which every external step succeeds. -/
def envAllOk : LoadEnv :=
  { parse_ok := true, has_first_nd := true, func_found := true,
    flowchart_ok := true, sanitize_ok := true }

/-- Load environment in which the definition file fails to parse. -/
def envParseFail : LoadEnv :=
  { envAllOk with parse_ok := false }

/-- Load environment in which the file parses but defines no addresses. -/
def envNoAddr : LoadEnv :=
  { envAllOk with has_first_nd := false }

/-- Load environment in which sanitization fails (empty CFG). -/
def envSanFail : LoadEnv :=
  { envAllOk with sanitize_ok := false }

theorem mapFind_mapInsert_self {α : Type} (m : List (Int × α)) (k : Int) (v : α) :
    mapFind (mapInsert m k v) k = some v := by
  induction m with
  | nil => simp [mapInsert, mapFind]
  | cons p rest ih =>
    obtain ⟨k', v'⟩ := p
    by_cases h1 : k < k'
    · simp [mapInsert, h1, mapFind]
    · by_cases h2 : k = k'
      · simp [mapInsert, h1, h2, mapFind]
      · simp [mapInsert, h1, h2, mapFind, ih]

theorem mapFind_mapInsert_ne {α : Type} (m : List (Int × α)) (k j : Int) (v : α)
    (h : j ≠ k) : mapFind (mapInsert m k v) j = mapFind m j := by
  induction m with
  | nil => simp [mapInsert, mapFind, h]
  | cons p rest ih =>
    obtain ⟨k', v'⟩ := p
    by_cases h1 : k < k'
    · simp [mapInsert, h1, mapFind, h]
    · by_cases h2 : k = k'
      · subst h2
        simp [mapInsert, h1, mapFind, h]
      · by_cases h3 : j = k'
        · simp [mapInsert, h1, h2, mapFind, h3]
        · simp [mapInsert, h1, h2, mapFind, h3, ih]

theorem mapErase_mapInsert {α : Type} (m : List (Int × α)) (k : Int) (v : α)
    (h : mapFind m k = none) : mapErase (mapInsert m k v) k = m := by
  induction m with
  | nil => simp [mapInsert, mapErase]
  | cons p rest ih =>
    obtain ⟨k', v'⟩ := p
    have hk : ¬(k = k') := by
      intro hkk
      simp [mapFind, hkk] at h
    have hrest : mapFind rest k = none := by
      simpa [mapFind, hk] using h
    by_cases h1 : k < k'
    · simp [mapInsert, h1, mapErase]
    · simp [mapInsert, h1, hk, mapErase, hk, ih hrest]

theorem mapFind_mapErase_ne {α : Type} (m : List (Int × α)) (k j : Int)
    (h : j ≠ k) : mapFind (mapErase m k) j = mapFind m j := by
  induction m with
  | nil => simp [mapErase]
  | cons p rest ih =>
    obtain ⟨k', v'⟩ := p
    by_cases h1 : k = k'
    · subst h1
      simp [mapErase, mapFind, h]
    · by_cases h2 : j = k'
      · simp [mapErase, h1, mapFind, h2]
      · simp [mapErase, h1, mapFind, h2, ih]

theorem toggle_of_not_found (s : ncolormap_t) (n : Int)
    (h : mapFind s n = none) :
    toggle_select_node s n = mapInsert s n NODE_SEL_COLOR := by
  unfold toggle_select_node
  rw [h]

theorem toggle_of_found (s : ncolormap_t) (n : Int) (c : bgcolor_t)
    (h : mapFind s n = some c) :
    toggle_select_node s n = mapErase s n := by
  unfold toggle_select_node
  rw [h]

/-- C9: toggling the selection of a node id that is not currently
selected first adds it with the fixed color `NODE_SEL_COLOR`; a second
toggle removes it again, leaving the selected-node map identical to the
original; neither call changes any other node's selection entry. -/
theorem toggle_select_node_roundtrip (s : ncolormap_t) (n : Int)
    (h : mapFind s n = none) :
    mapFind (toggle_select_node s n) n = some NODE_SEL_COLOR
    ∧ toggle_select_node (toggle_select_node s n) n = s
    ∧ (∀ j, j ≠ n → mapFind (toggle_select_node s n) j = mapFind s j)
    ∧ (∀ j, j ≠ n →
        mapFind (toggle_select_node (toggle_select_node s n) n) j = mapFind s j) := by
  have h1 : toggle_select_node s n = mapInsert s n NODE_SEL_COLOR :=
    toggle_of_not_found s n h
  have hfind : mapFind (toggle_select_node s n) n = some NODE_SEL_COLOR := by
    rw [h1]
    exact mapFind_mapInsert_self s n NODE_SEL_COLOR
  have h2 : toggle_select_node (toggle_select_node s n) n = s := by
    rw [toggle_of_found _ n NODE_SEL_COLOR hfind, h1]
    exact mapErase_mapInsert s n NODE_SEL_COLOR h
  refine ⟨hfind, h2, ?_, ?_⟩
  · intro j hj
    rw [h1]
    exact mapFind_mapInsert_ne s n j NODE_SEL_COLOR hj
  · intro j hj
    rw [h2]

/-- Witness for C9 at the concrete map `[(2, 5)]` and node id `0`. -/
theorem toggle_select_node_roundtrip_w :
    mapFind (toggle_select_node [(2, 5)] 0) 0 = some NODE_SEL_COLOR
    ∧ toggle_select_node (toggle_select_node [(2, 5)] 0) 0 = [(2, 5)]
    ∧ mapFind (toggle_select_node [(2, 5)] 0) 2 = mapFind [(2, 5)] 2
    ∧ mapFind (toggle_select_node (toggle_select_node [(2, 5)] 0) 0) 2
        = mapFind [(2, 5)] 2 :=
  ⟨(toggle_select_node_roundtrip [(2, 5)] 0 (by decide)).1,
   (toggle_select_node_roundtrip [(2, 5)] 0 (by decide)).2.1,
   (toggle_select_node_roundtrip [(2, 5)] 0 (by decide)).2.2.1 2 (by decide),
   (toggle_select_node_roundtrip [(2, 5)] 0 (by decide)).2.2.2 2 (by decide)⟩

/-- C1: on every rebuild whose requested mode is not a soft refresh, the
`grcode_user_refresh` handler hands the graph builder a state in which
the highlight map, the selection map, the node map, the
NodeGroup-to-node-id map and the current-node marker have all been
cleared: the handler's result is exactly the mode's builder applied to
that fully reset state. -/
theorem gr_user_refresh_clears_state
    (bs bc : GVState → GVState) (st : GVState)
    (h : st.refresh_mode ≠ gvrfm_soft) :
    ((pre_build_state st).highlighted_nodes = []
      ∧ (pre_build_state st).selected_nodes = []
      ∧ (pre_build_state st).node_map = []
      ∧ (pre_build_state st).ng2id = []
      ∧ (pre_build_state st).cur_node = -1)
    ∧ gr_user_refresh bs bc st =
        (if st.refresh_mode = gvrfm_single_mode then bs (pre_build_state st)
         else bc (pre_build_state st)) := by
  constructor
  · exact ⟨rfl, rfl, rfl, rfl, rfl⟩
  · cases hrm : st.refresh_mode with
    | gvrfm_soft => exact absurd hrm h
    | gvrfm_single_mode => simp [gr_user_refresh, hrm]
    | gvrfm_combined_mode => simp [gr_user_refresh, hrm]

/-- Witness for C1 at the concrete state `gvState0` (a pending
single-mode rebuild) with identity builders. -/
theorem gr_user_refresh_clears_state_w :
    ((pre_build_state gvState0).highlighted_nodes = []
      ∧ (pre_build_state gvState0).selected_nodes = []
      ∧ (pre_build_state gvState0).node_map = []
      ∧ (pre_build_state gvState0).ng2id = []
      ∧ (pre_build_state gvState0).cur_node = -1)
    ∧ gr_user_refresh id id gvState0 =
        (if gvState0.refresh_mode = gvrfm_single_mode then id (pre_build_state gvState0)
         else id (pre_build_state gvState0)) :=
  gr_user_refresh_clears_state id id gvState0 (by decide)

/-- C2: a combine request issued in the combined view with fewer than two
selected nodes is rejected: the "Not enough selected nodes" message is
the only effect, the state (and with it the group manager) is returned
unchanged, and no combine call reaches the group manager. -/
theorem combine_rejects_insufficient_selection
    (combine_ngl : groupman_t → List (Option nodegroup_t) → groupman_t)
    (st : GVState)
    (hmode : st.cur_view_mode = gvrfm_combined_mode)
    (hsel : st.selected_nodes.length ≤ 1) :
    on_menu_combine_ngs combine_ngl st = (st, [GVEvent.msgNotEnoughNodes])
    ∧ ∀ ngl, GVEvent.combineCall ngl ∉ (on_menu_combine_ngs combine_ngl st).2 := by
  have h1 : on_menu_combine_ngs combine_ngl st = (st, [GVEvent.msgNotEnoughNodes]) := by
    unfold on_menu_combine_ngs
    simp [hmode, hsel]
  refine ⟨h1, ?_⟩
  intro ngl
  rw [h1]
  simp

/-- Witness for C2 at the concrete state `gvState0` (combined view, one
selected node) with a combine function that would rebuild the manager. -/
theorem combine_rejects_insufficient_selection_w :
    on_menu_combine_ngs (fun g _ => g) gvState0 = (gvState0, [GVEvent.msgNotEnoughNodes])
    ∧ GVEvent.combineCall [] ∉ (on_menu_combine_ngs (fun g _ => g) gvState0).2 :=
  ⟨(combine_rejects_insufficient_selection (fun g _ => g) gvState0 (by decide) (by decide)).1,
   (combine_rejects_insufficient_selection (fun g _ => g) gvState0 (by decide) (by decide)).2 []⟩

/-- C6: a combine request issued while the displayed view is not the
combined projection is rejected: the "only available in combined mode"
message is the only effect, the state is returned unchanged, and no
combine call reaches the group manager. -/
theorem combine_rejects_wrong_mode
    (combine_ngl : groupman_t → List (Option nodegroup_t) → groupman_t)
    (st : GVState)
    (hmode : st.cur_view_mode ≠ gvrfm_combined_mode) :
    on_menu_combine_ngs combine_ngl st = (st, [GVEvent.msgOnlyCombinedMode])
    ∧ ∀ ngl, GVEvent.combineCall ngl ∉ (on_menu_combine_ngs combine_ngl st).2 := by
  have h1 : on_menu_combine_ngs combine_ngl st = (st, [GVEvent.msgOnlyCombinedMode]) := by
    unfold on_menu_combine_ngs
    simp [hmode]
  refine ⟨h1, ?_⟩
  intro ngl
  rw [h1]
  simp

/-- Witness for C6 at the concrete state `gvState1` (single view
displayed). -/
theorem combine_rejects_wrong_mode_w :
    on_menu_combine_ngs (fun g _ => g) gvState1 = (gvState1, [GVEvent.msgOnlyCombinedMode])
    ∧ GVEvent.combineCall [] ∉ (on_menu_combine_ngs (fun g _ => g) gvState1).2 :=
  ⟨(combine_rejects_wrong_mode (fun g _ => g) gvState1 (by decide)).1,
   (combine_rejects_wrong_mode (fun g _ => g) gvState1 (by decide)).2 []⟩

/-- C5: on every load path, the lookup-cache build (the
`initialize_lookups` call of plugin.cpp line 1962) happens only inside
the branch where `sanitize_groupman` returned success: whenever the
trace contains the cache-build call, the sanitize outcome was success
and the successful sanitize call is in the trace. -/
theorem load_file_lookups_only_after_sanitize (env : LoadEnv)
    (h : ChEvent.buildLookupsCall ∈ (load_file env).events) :
    env.sanitize_ok = true
    ∧ ChEvent.sanitizeCall true ∈ (load_file env).events := by
  rcases env with ⟨p, a, f, c, s⟩
  cases p <;> cases a <;> cases f <;> cases c <;> cases s <;> revert h <;> decide

/-- Witness for C5 at the all-success environment. -/
theorem load_file_lookups_only_after_sanitize_w :
    envAllOk.sanitize_ok = true
    ∧ ChEvent.sanitizeCall true ∈ (load_file envAllOk).events :=
  load_file_lookups_only_after_sanitize envAllOk (by decide)

/-- C3 counterexample: for a file that parses but defines no addresses,
the load is aborted with a message, yet the parsed group manager is
retained (the member `gm` still holds it, it is not deleted) — refuting
that no partial GroupManager is retained on this path. -/
theorem load_file_no_addresses_retains_gm :
    (load_file envNoAddr).ok = false
    ∧ ChEvent.msgNoAddresses ∈ (load_file envNoAddr).events
    ∧ (load_file envNoAddr).gm = some GMState.parsed
    ∧ (load_file envNoAddr).gm ≠ none := by
  decide

/-- C3 (amended): on a parse failure the load is aborted, the failure is
surfaced, and the group manager is deleted (none retained); on a file
that parses but defines no addresses the load is likewise aborted with a
message, but the parsed group manager remains held by the chooser. -/
theorem load_file_abort_behavior (env : LoadEnv) :
    (env.parse_ok = false →
      load_file env = { ok := false, gm := none, events := [ChEvent.msgParseFail] })
    ∧ (env.parse_ok = true → env.has_first_nd = false →
      load_file env = { ok := false, gm := some GMState.parsed,
                        events := [ChEvent.msgNoAddresses] }) := by
  rcases env with ⟨p, a, f, c, s⟩
  cases p <;> cases a <;> cases f <;> cases c <;> cases s <;> decide

/-- Witness for C3 (amended) at the parse-failure and no-addresses
environments. -/
theorem load_file_abort_behavior_w :
    load_file envParseFail
      = { ok := false, gm := none, events := [ChEvent.msgParseFail] }
    ∧ load_file envNoAddr
      = { ok := false, gm := some GMState.parsed,
          events := [ChEvent.msgNoAddresses] } :=
  ⟨(load_file_abort_behavior envParseFail).1 rfl,
   (load_file_abort_behavior envNoAddr).2 rfl rfl⟩

/-- C4 counterexample: when sanitization fails and every earlier step
succeeded, `load_file` still returns true, the chooser lines are
populated, and `load_file_show_graph` goes on to build and show the
graph — refuting that a sanitize failure is fatal to the load. -/
theorem sanitize_failure_not_fatal :
    (load_file envSanFail).ok = true
    ∧ ChEvent.populateLines ∈ (load_file envSanFail).events
    ∧ ChEvent.showGraphCall ∈ (load_file_show_graph true envSanFail).events
    ∧ (load_file_show_graph true envSanFail).ok = true := by
  decide

/-- C4 (amended): when sanitization fails the only consequence is that
the lookup cache is not built; the load still reports success, the
chooser lines are populated, and the graph is built and shown. -/
theorem sanitize_failure_skips_lookups_only (env : LoadEnv) (show_ok : Bool)
    (hp : env.parse_ok = true) (ha : env.has_first_nd = true)
    (hf : env.func_found = true) (hc : env.flowchart_ok = true)
    (hs : env.sanitize_ok = false) :
    (load_file env).ok = true
    ∧ ChEvent.buildLookupsCall ∉ (load_file env).events
    ∧ ChEvent.populateLines ∈ (load_file env).events
    ∧ ChEvent.showGraphCall ∈ (load_file_show_graph show_ok env).events
    ∧ (load_file_show_graph show_ok env).ok = show_ok := by
  rcases env with ⟨p, a, f, c, s⟩
  cases show_ok <;> subst hp <;> subst ha <;> subst hf <;> subst hc <;> subst hs <;> decide

/-- Witness for C4 (amended) at the sanitize-failure environment. -/
theorem sanitize_failure_skips_lookups_only_w :
    (load_file envSanFail).ok = true
    ∧ ChEvent.buildLookupsCall ∉ (load_file envSanFail).events
    ∧ ChEvent.populateLines ∈ (load_file envSanFail).events
    ∧ ChEvent.showGraphCall ∈ (load_file_show_graph true envSanFail).events
    ∧ (load_file_show_graph true envSanFail).ok = true :=
  sanitize_failure_skips_lookups_only envSanFail true rfl rfl rfl rfl rfl

/-- C8: when the renderer queries the background color of a node of the
displayed graph (a node present in the node map), selection takes
priority over highlighting: a selected node gets its selection color, an
unselected highlighted node gets its highlight color, and otherwise no
background color is produced. -/
theorem gr_user_text_selection_priority (st : GVState) (node : Int)
    (g : gnode_t) (hmap : mapFind st.node_map node = some g) :
    (∀ c, mapFind st.selected_nodes node = some c →
      gr_user_text st node = some (g.text, some c))
    ∧ (mapFind st.selected_nodes node = none →
        ∀ c, mapFind st.highlighted_nodes node = some c →
          gr_user_text st node = some (g.text, some c))
    ∧ (mapFind st.selected_nodes node = none →
        mapFind st.highlighted_nodes node = none →
          gr_user_text st node = some (g.text, none)) := by
  refine ⟨?_, ?_, ?_⟩
  · intro c hc
    simp [gr_user_text, hmap, hc]
  · intro hsel c hc
    simp [gr_user_text, hmap, hsel, hc]
  · intro hsel hhi
    simp [gr_user_text, hmap, hsel, hhi]

/-- Witness for C8 at the concrete state `gvState0`: node 0 is both in
the node map and selected, so its selection color is returned. -/
theorem gr_user_text_selection_priority_w :
    gr_user_text gvState0 0
      = some ((gnode_t.mk "node0" "").text, some NODE_SEL_COLOR) :=
  (gr_user_text_selection_priority gvState0 0 (gnode_t.mk "node0" "")
    (by decide)).1 NODE_SEL_COLOR (by decide)

/-- C10: `ngid_to_sg` resolves through the currently focused node, not
its argument: with the view state fixed, any two argument values yield
the same result, namely the supergroup found by mapping `cur_node` to a
node group, taking that group's first node definition, and looking its
id up in the group manager's location index. -/
theorem ngid_to_sg_ignores_argument (gm : groupman_t) (ng2id : ng2nid_t)
    (cur_node : Int) (ngid1 ngid2 : Int) :
    ngid_to_sg gm ng2id cur_node ngid1 = ngid_to_sg gm ng2id cur_node ngid2
    ∧ ngid_to_sg gm ng2id cur_node ngid1 =
        (match get_ng_from_ngid ng2id cur_node with
         | none => none
         | some ng =>
           match ng.get_first_node with
           | none => none
           | some nd =>
             match gm.find_nodeid_loc nd.nid with
             | none => none
             | some loc => some loc.sg) :=
  ⟨rfl, rfl⟩

theorem variant_color_inj (b : Nat) {k1 k2 : Nat} (h1 : k1 < 64) (h2 : k2 < 64)
    (h : variant_color b k1 = variant_color b k2) : k1 = k2 := by
  unfold variant_color LUM_LEVELS NUM_HUES at h
  omega

theorem run_variants_eq (n : Nat) : ∀ b u : Nat,
    run_variants { base := b, used := u } n
      = (List.range n).map (fun k => variant_color b (u + k)) := by
  induction n with
  | zero =>
    intro b u
    simp [run_variants]
  | succ m ih =>
    intro b u
    have hfun : (fun k => variant_color b (u + 1 + k))
        = (fun k => variant_color b (u + Nat.succ k)) := by
      funext k
      congr 1
      omega
    calc run_variants { base := b, used := u } (m + 1)
        = variant_color b u :: run_variants { base := b, used := u + 1 } m := by
          simp [run_variants, colorgen_t.get_color_anyway]
      _ = variant_color b u :: (List.range m).map (fun k => variant_color b (u + 1 + k)) := by
          rw [ih]
      _ = (List.range (m + 1)).map (fun k => variant_color b (u + k)) := by
          rw [List.range_succ_eq_map, List.map_cons, List.map_map, hfun]
          simp [Function.comp]

theorem run_variants_nodup (b n : Nat) (h : n ≤ 64) :
    (run_variants { base := b, used := 0 } n).Nodup := by
  rw [run_variants_eq]
  refine List.Nodup.map_on ?_ (List.nodup_range n)
  intro x hx y hy hxy
  rw [List.mem_range] at hx hy
  exact variant_color_inj b (lt_of_lt_of_le hx h) (lt_of_lt_of_le hy h)
    (by simpa using hxy)

/-- C7: color assignment is deterministic — a run is a pure function of
the requested batch sizes, so two runs over identical batch sizes
produce identical color sequences — and within one batch of at most 64
variants the produced colors are pairwise distinct. -/
theorem colorgen_deterministic_and_distinct :
    (∀ (cg : colorgen_t) (sizes1 sizes2 : List Nat), sizes1 = sizes2 →
      run_batches cg sizes1 = run_batches cg sizes2)
    ∧ ∀ b n, n ≤ 64 → (run_variants { base := b, used := 0 } n).Nodup := by
  constructor
  · intro cg s1 s2 hs
    rw [hs]
  · intro b n h
    exact run_variants_nodup b n h

/-- Witness for C7: a concrete two-batch run compared with itself, and
a full batch of 64 pairwise-distinct colors. -/
theorem colorgen_deterministic_and_distinct_w :
    run_batches DECL_CG [3, 2] = run_batches DECL_CG [3, 2]
    ∧ (run_variants { base := 0, used := 0 } 64).Nodup :=
  ⟨colorgen_deterministic_and_distinct.1 DECL_CG [3, 2] [3, 2] rfl,
   colorgen_deterministic_and_distinct.2 0 64 (by decide)⟩
